import Mathlib

/-!
Verification of the table-driven test harness specified for maxproske/learn-go.

The embedding follows the repository sources:
- `src/02-integers/adder.go` (the `Add` subject function),
- `src/02-integers/adder_test.go` (the integer assertion check),
- `src/01-hello-world/hello_test.go` (the string assertion check
  `assertCorrectMessage` and the four greeting scenarios).

The greeting subject function itself (`hello.go`) and the generic
`RunAll` case runner of the spec are not present under `src/`; those are
modelled from the spec, as marked in their doc comments.
-/

set_option autoImplicit false

namespace LearnGo

/-- Modulus of Go's `int` arithmetic on 64-bit platforms: 2 ^ 64. -/
def intMod : Int := 2 ^ 64

/-- Smallest value of Go's 64-bit `int`: -2 ^ 63. -/
def minInt64 : Int := -(2 ^ 63)

/-- Largest value of Go's 64-bit `int`: 2 ^ 63 - 1. -/
def maxInt64 : Int := 2 ^ 63 - 1

/-- Reduction of an unbounded integer into the 64-bit two's-complement
range `[-2^63, 2^63)`, as Go's fixed-width signed arithmetic does. -/
def wrap64 (x : Int) : Int := (x + 2 ^ 63) % 2 ^ 64 - 2 ^ 63

/-- From `src/02-integers/adder.go`: `func Add(a, b int) (sum int) { return a + b }`.
Go guarantees two's-complement wraparound for signed integer addition, so the
machine-accurate embedding wraps the mathematical sum into the `int` range. -/
def Add (a b : Int) : Int := wrap64 (a + b)

/-- Modelled from the spec: the greeting table of the subject function.
`hello.go` is not under `src/` (only `hello_test.go` is); per the spec's
scenarios the greeting word is chosen by the language tag ("Hola" for
Spanish, "Bonjour" for French, "Hello" for English). -/
def greetingFor (language : String) : String :=
  if language == "Spanish" then "Hola"
  else if language == "French" then "Bonjour"
  else "Hello"

/-- Modelled from the spec: the greeting subject function
`Hello(name, language)`; "empty name maps to default \"World\"" and the
greeting word is joined to the name with ", ". -/
def Hello (name language : String) : String :=
  greetingFor language ++ ", " ++ (if name == "" then "World" else name)

/-- Rendering of one character under Go's `%q` string quoting: escapes for
the quote, the backslash and common control characters; other characters
are rendered unchanged. -/
def goEscapeChar (c : Char) : String :=
  if c == '"' then "\\\""
  else if c == '\\' then "\\\\"
  else if c == '\n' then "\\n"
  else if c == '\t' then "\\t"
  else if c == '\r' then "\\r"
  else String.singleton c

/-- Go's `%q` verb on a string: the escaped characters wrapped in double
quotes, as `t.Errorf("got %q want %q", ...)` renders its arguments. -/
def goQuote (s : String) : String :=
  "\"" ++ String.join (s.data.map goEscapeChar) ++ "\""

/-- AssertionResult from the spec's data model (section 3):
pass/fail verdict, the two compared values, and the diagnostic message. -/
structure AssertionResult (α : Type) where
  passed : Bool
  actual : α
  expected : α
  message : String
deriving DecidableEq

/-- From `src/01-hello-world/hello_test.go`: `assertCorrectMessage` compares
`got` with `want` by string equality and on mismatch formats Go's
`got %q want %q`; cast into the spec's Check shape returning an
`AssertionResult` (the effect on the `testing.T` state is modelled
separately by `assertCorrectMessageT`). -/
def assertCorrectMessage (got want : String) : AssertionResult String :=
  { passed := got == want
    actual := got
    expected := want
    message :=
      if got == want then ""
      else "got " ++ goQuote got ++ " want " ++ goQuote want }

/-- From `src/02-integers/adder_test.go` (`TestAdder`):
`if expected != actual { t.Errorf("expected %d, actual: %d", expected, actual) }`,
cast into the spec's Check shape returning an `AssertionResult`. -/
def checkAdder (actual expected : Int) : AssertionResult Int :=
  { passed := expected == actual
    actual := actual
    expected := expected
    message :=
      if expected == actual then ""
      else "expected " ++ toString expected ++ ", actual: " ++ toString actual }

/-- Caller-visible state of Go's `testing.T` / `testing.TB`: whether the test
has been marked failed, and the log of recorded error messages. -/
structure TState where
  failed : Bool
  log : List String
deriving DecidableEq

/-- Go's `t.Errorf`: records the formatted message in the log and marks the
test failed; it returns normally (unlike `Fatalf` it does not halt the test). -/
def errorf (t : TState) (msg : String) : TState :=
  { failed := true, log := t.log ++ [msg] }

/-- State-passing form of `assertCorrectMessage` from
`src/01-hello-world/hello_test.go`: `if got != want { t.Errorf("got %q want %q", got, want) }`. -/
def assertCorrectMessageT (t : TState) (got want : String) : TState :=
  if got != want then errorf t ("got " ++ goQuote got ++ " want " ++ goQuote want)
  else t

/-- Modelled from the spec: a run over an ordered sequence of
`(got, want)` checks against one `testing.T` state, as `TestHello` chains
its subtests through `assertCorrectMessage`; the generic runner over an
arbitrary sequence is the spec's CaseRunner, absent from `src/`. -/
def runCases (t : TState) (cases : List (String × String)) : TState :=
  match cases with
  | [] => t
  | (got, want) :: rest => runCases (assertCorrectMessageT t got want) rest

/-- TestCase from the spec's data model (section 3): a name, the subject
function's inputs, and the expected output. -/
structure TestCase (ι α : Type) where
  name : String
  inputs : ι
  expected : α
deriving DecidableEq

/-- Modelled from the spec: `RunAll(subjectFn, cases)` of section 4.2
(CaseRunner) is not code under `src/` (`TestHello` realizes it for four
fixed subtests); it evaluates the subject on each case's inputs in
sequence order and delegates each comparison to the assertion core
supplied as `check`, pairing each case with its result. -/
def RunAll {ι α : Type} (check : α → α → AssertionResult α) (f : ι → α)
    (cases : List (TestCase ι α)) : List (TestCase ι α × AssertionResult α) :=
  cases.map (fun c => (c, check (f c.inputs) c.expected))

/-- Test table from `src/01-hello-world/hello_test.go` (`TestHello`): the
four subtests with their names, inputs and expected greetings. -/
def greetingCases : List (TestCase (String × String) String) :=
  [ ⟨"saying hello to people", ("Max", "English"), "Hello, Max"⟩,
    ⟨"say hello to empty string", ("", "English"), "Hello, World"⟩,
    ⟨"in Spanish", ("Elodie", "Spanish"), "Hola, Elodie"⟩,
    ⟨"in French", ("James", "French"), "Bonjour, James"⟩ ]

/-- The greeting subject function wired to a pair of arguments, as the
case runner invokes it. -/
def helloSubject (p : String × String) : String := Hello p.1 p.2

/-- The mutant subject of the spec's mutation test (section 8, scenario 5):
a greeting function forced to return "Hello, World" for every input. -/
def helloMutant (_ : String × String) : String := "Hello, World"

/-- Test table for the adder from `src/02-integers/adder_test.go`:
`TestAdder` checks `Add(2, 2) = 4` and `ExampleAdd` checks
`Add(5, 3) = 8` and `Add(5, 5) = 10`. -/
def adderCases : List (TestCase (Int × Int) Int) :=
  [ ⟨"adds two integers", (2, 2), 4⟩,
    ⟨"example sum", (5, 3), 8⟩,
    ⟨"example sum of equals", (5, 5), 10⟩ ]

/-- The adder subject function wired to a pair of arguments, as the case
runner invokes it. -/
def addSubject (p : Int × Int) : Int := Add p.1 p.2

/-- Containment of `sub` inside `s`, as lists of characters: some
character sequence of `s` is exactly `sub`. -/
def containsSub (s sub : String) : Prop :=
  ∃ pre post, s.data = pre ++ sub.data ++ post

/-! Helper lemmas shared by the claim theorems. -/

/-- Wrapping is the identity on values already inside the int64 range. -/
lemma wrap64_eq_self {x : Int} (h1 : minInt64 ≤ x) (h2 : x ≤ maxInt64) :
    wrap64 x = x := by
  unfold wrap64 minInt64 maxInt64 at *
  omega

/-- Characterization of a run: the final log is the initial log followed by
one `got %q want %q` report per mismatching case, in case order, and the
final failed flag is the disjunction of the initial flag with the
mismatches. -/
lemma runCases_spec (cases : List (String × String)) :
    ∀ t : TState,
      (runCases t cases).log =
        t.log ++ (cases.filter (fun c => c.1 != c.2)).map
          (fun c => "got " ++ goQuote c.1 ++ " want " ++ goQuote c.2) ∧
      (runCases t cases).failed = (t.failed || cases.any (fun c => c.1 != c.2)) := by
  induction cases with
  | nil => intro t; simp [runCases]
  | cons c rest ih =>
      intro t
      obtain ⟨g, w⟩ := c
      by_cases h : g = w
      · simpa [runCases, assertCorrectMessageT, h] using
          ih (assertCorrectMessageT t g w)
      · have := ih (errorf t ("got " ++ goQuote g ++ " want " ++ goQuote w))
        simp [runCases, assertCorrectMessageT, errorf, h] at this ⊢
        simp [this]
        tauto

/-! Claim theorems. -/

/-- Claim C1: for every assertion check (the string check
`assertCorrectMessage` and the integer check of `TestAdder`), the result
has `passed = true` exactly when actual equals expected under exact value
equality; whenever actual differs from expected, `passed = false` and the
failure message contains both the actual and the expected value (strings
as rendered by Go's `%q`, integers in decimal). -/
theorem c1_check_exact_equality_and_message :
    (∀ got want : String,
        ((assertCorrectMessage got want).passed = true ↔ got = want) ∧
        (got ≠ want →
          (assertCorrectMessage got want).passed = false ∧
          containsSub (assertCorrectMessage got want).message (goQuote got) ∧
          containsSub (assertCorrectMessage got want).message (goQuote want))) ∧
    (∀ actual expected : Int,
        ((checkAdder actual expected).passed = true ↔ actual = expected) ∧
        (actual ≠ expected →
          (checkAdder actual expected).passed = false ∧
          containsSub (checkAdder actual expected).message (toString actual) ∧
          containsSub (checkAdder actual expected).message (toString expected))) := by
  constructor
  · intro got want
    constructor
    · constructor
      · intro h; simpa [assertCorrectMessage] using h
      · intro h; simp [assertCorrectMessage, h]
    · intro hne
      refine ⟨by simp [assertCorrectMessage, hne], ?_, ?_⟩
      · unfold containsSub
        refine ⟨"got ".data, " want ".data ++ (goQuote want).data, ?_⟩
        simp [assertCorrectMessage, hne, String.data_append]
      · unfold containsSub
        refine ⟨"got ".data ++ (goQuote got).data ++ " want ".data, [], ?_⟩
        simp [assertCorrectMessage, hne, String.data_append]
  · intro actual expected
    constructor
    · constructor
      · intro h
        have := of_decide_eq_true (by simpa [checkAdder] using h)
        omega
      · intro h; simp [checkAdder, h]
    · intro hne
      have hne' : expected ≠ actual := fun h => hne h.symm
      refine ⟨by simp [checkAdder, hne'], ?_, ?_⟩
      · unfold containsSub
        refine ⟨"expected ".data ++ (toString expected).data ++ ", actual: ".data,
          [], ?_⟩
        simp [checkAdder, hne', String.data_append]
      · unfold containsSub
        refine ⟨"expected ".data, ", actual: ".data ++ (toString actual).data, ?_⟩
        simp [checkAdder, hne', String.data_append]

/-- Witness for C1 at concrete mismatching inputs. -/
theorem c1_check_exact_equality_and_message_witness :
    (assertCorrectMessage "a" "b").passed = false ∧
    containsSub (assertCorrectMessage "a" "b").message (goQuote "a") ∧
    containsSub (assertCorrectMessage "a" "b").message (goQuote "b") ∧
    (checkAdder 1 2).passed = false ∧
    containsSub (checkAdder 1 2).message (toString (1 : Int)) ∧
    containsSub (checkAdder 1 2).message (toString (2 : Int)) := by
  have h1 := (c1_check_exact_equality_and_message.1 "a" "b").2 (by decide)
  have h2 := (c1_check_exact_equality_and_message.2 1 2).2 (by decide)
  exact ⟨h1.1, h1.2.1, h1.2.2, h2.1, h2.2.1, h2.2.2⟩

/-- Claim C2: for every sequence of test cases S (including the empty
sequence) and every subject function f, `RunAll` returns exactly
`S.length` (case, result) pairs in input order; `RunAll` on `[]` returns
`[]` and is not an error. -/
theorem c2_runAll_length_and_order :
    ∀ {ι α : Type} (check : α → α → AssertionResult α) (f : ι → α)
      (S : List (TestCase ι α)),
      (RunAll check f S).length = S.length ∧
      (RunAll check f S).map Prod.fst = S ∧
      RunAll check f ([] : List (TestCase ι α)) = [] := by
  intro ι α check f S
  refine ⟨by simp [RunAll], ?_, rfl⟩
  rw [RunAll, List.map_map]
  exact List.map_id S

/-- Counterexample to claim C3 as stated: at the largest machine integer,
`Add` does not return the mathematical sum (it wraps). -/
theorem c3_add_overflow_counterexample : Add maxInt64 1 ≠ maxInt64 + 1 := by
  decide

/-- Claim C3 (amended): whenever the mathematical sum fits in the int64
range, `Add a b` returns the sum of a and b; in particular
`Add 2 2 = 4`, `Add 5 3 = 8`, `Add 5 5 = 10`, and each of these cases is
reported as passed. -/
theorem c3_add_sum_within_range :
    (∀ a b : Int, minInt64 ≤ a + b → a + b ≤ maxInt64 → Add a b = a + b) ∧
    Add 2 2 = 4 ∧ Add 5 3 = 8 ∧ Add 5 5 = 10 ∧
    (RunAll checkAdder addSubject adderCases).map (fun r => r.2.passed) =
      [true, true, true] := by
  refine ⟨fun a b h1 h2 => wrap64_eq_self h1 h2, by decide, by decide,
    by decide, by decide⟩

/-- Witness for C3 (amended) at a concrete in-range input. -/
theorem c3_add_sum_within_range_witness : Add 2 2 = 2 + 2 :=
  c3_add_sum_within_range.1 2 2 (by decide) (by decide)

/-- Claim C4: a failing case never prevents the evaluation and reporting of
subsequent cases: over any case sequence the run reports every mismatching
case (in order, with its message) no matter which earlier cases failed,
the failed flag aggregates all mismatches, and the runner over a
concatenation is the concatenation of the runs. -/
theorem c4_failing_case_never_stops_run :
    (∀ (t : TState) (cases : List (String × String)),
        (runCases t cases).log =
          t.log ++ (cases.filter (fun c => c.1 != c.2)).map
            (fun c => "got " ++ goQuote c.1 ++ " want " ++ goQuote c.2) ∧
        (runCases t cases).failed =
          (t.failed || cases.any (fun c => c.1 != c.2))) ∧
    (∀ {ι α : Type} (check : α → α → AssertionResult α) (f : ι → α)
        (S₁ S₂ : List (TestCase ι α)),
        RunAll check f (S₁ ++ S₂) = RunAll check f S₁ ++ RunAll check f S₂) := by
  constructor
  · intro t cases
    exact runCases_spec cases t
  · intro ι α check f S₁ S₂
    simp [RunAll]

/-- Claim C5: the greeting subject function satisfies all four concrete
scenarios of the spec, and each is reported as passed by the harness. -/
theorem c5_greeting_scenarios_pass :
    Hello "Max" "English" = "Hello, Max" ∧
    Hello "" "English" = "Hello, World" ∧
    Hello "Elodie" "Spanish" = "Hola, Elodie" ∧
    Hello "James" "French" = "Bonjour, James" ∧
    (RunAll assertCorrectMessage helloSubject greetingCases).map
      (fun r => r.2.passed) = [true, true, true, true] := by
  decide

/-- Counterexample to claim C6 as stated: on a mismatch, invoking the check
changes the caller-visible testing state (it marks the test failed and
records the message), so the state is not unchanged. -/
theorem c6_check_mutates_state_counterexample :
    assertCorrectMessageT ⟨false, []⟩ "a" "b" ≠ (⟨false, []⟩ : TState) := by
  decide

/-- Claim C6 (amended): the check's verdict is a pure function of
(actual, expected); on equal values the caller-visible state is unchanged;
on a mismatch the check itself records the failure via `Errorf` (marking
the test failed and appending a message determined only by the two
values) and returns normally — it never halts the run, so continuing is
left to the caller. -/
theorem c6_check_verdict_pure_and_never_halts :
    (∀ (t : TState) (got want : String), got = want →
        assertCorrectMessageT t got want = t) ∧
    (∀ (t : TState) (got want : String), got ≠ want →
        assertCorrectMessageT t got want =
          { failed := true,
            log := t.log ++ ["got " ++ goQuote got ++ " want " ++ goQuote want] }) ∧
    (∀ got want : String, (assertCorrectMessage got want).passed = (got == want)) := by
  refine ⟨?_, ?_, fun got want => rfl⟩
  · intro t got want h
    simp [assertCorrectMessageT, h]
  · intro t got want h
    simp [assertCorrectMessageT, errorf, h]

/-- Witness for C6 (amended) at concrete inputs. -/
theorem c6_check_verdict_pure_and_never_halts_witness :
    assertCorrectMessageT ⟨false, []⟩ "a" "a" = (⟨false, []⟩ : TState) ∧
    assertCorrectMessageT ⟨false, []⟩ "a" "b" =
      (⟨true, ["got \"a\" want \"b\""]⟩ : TState) := by
  constructor
  · exact c6_check_verdict_pure_and_never_halts.1 ⟨false, []⟩ "a" "a" rfl
  · have h := c6_check_verdict_pure_and_never_halts.2.1 ⟨false, []⟩ "a" "b"
      (by decide)
    rw [h]
    decide

/-- Claim C7: with the subject forced to return "Hello, World" for every
input, scenarios 1, 3 and 4 report `passed = false` with messages showing
the mismatched actual/expected pair, while scenario 2 still passes. -/
theorem c7_mutation_scenarios :
    (RunAll assertCorrectMessage helloMutant greetingCases).map
      (fun r => r.2.passed) = [false, true, false, false] ∧
    (RunAll assertCorrectMessage helloMutant greetingCases).map
      (fun r => r.2.message) =
      [ "got \"Hello, World\" want \"Hello, Max\"", "",
        "got \"Hello, World\" want \"Hola, Elodie\"",
        "got \"Hello, World\" want \"Bonjour, James\"" ] ∧
    containsSub "got \"Hello, World\" want \"Hello, Max\"" (goQuote "Hello, World") ∧
    containsSub "got \"Hello, World\" want \"Hello, Max\"" (goQuote "Hello, Max") := by
  refine ⟨by decide, by decide, ?_, ?_⟩
  · unfold containsSub
    exact ⟨"got ".data, " want \"Hello, Max\"".data, by decide⟩
  · unfold containsSub
    exact ⟨"got \"Hello, World\" want ".data, [], by decide⟩

/-- Claim C8: `RunAll` is deterministic: with a pure subject function, two
invocations on the same cases yield identical result sequences — the
output depends only on the subject's input/output behavior and the case
list. -/
theorem c8_runAll_deterministic :
    ∀ {ι α : Type} (check : α → α → AssertionResult α) (f g : ι → α)
      (S : List (TestCase ι α)),
      (∀ x, f x = g x) → RunAll check f S = RunAll check g S := by
  intro ι α check f g S h
  have hfg : f = g := funext h
  rw [hfg]

/-- Witness for C8: two syntactically different invocations of the same
greeting subject give the same results. -/
theorem c8_runAll_deterministic_witness :
    RunAll assertCorrectMessage helloSubject greetingCases =
      RunAll assertCorrectMessage (fun p => Hello p.1 p.2) greetingCases :=
  c8_runAll_deterministic assertCorrectMessage helloSubject
    (fun p => Hello p.1 p.2) greetingCases (fun _ => rfl)

/-- Claim C9: `Add` computes the sum with 64-bit two's-complement
wraparound: the result is congruent to a + b modulo 2 ^ 64, always lies in
the int64 range, and `Add maxInt64 1` silently wraps to `minInt64`. -/
theorem c9_add_wraps_two_complement :
    (∀ a b : Int, Add a b % intMod = (a + b) % intMod) ∧
    (∀ a b : Int, minInt64 ≤ Add a b ∧ Add a b ≤ maxInt64) ∧
    Add maxInt64 1 = minInt64 := by
  refine ⟨?_, ?_, by decide⟩
  · intro a b
    unfold Add wrap64 intMod
    omega
  · intro a b
    unfold Add wrap64 minInt64 maxInt64
    omega

/-- Claim C10: `Add` is commutative, and 0 is an identity for every value
in the machine int range. -/
theorem c10_add_comm_and_zero_identity :
    (∀ a b : Int, Add a b = Add b a) ∧
    (∀ a : Int, minInt64 ≤ a → a ≤ maxInt64 → Add a 0 = a) := by
  constructor
  · intro a b
    unfold Add
    rw [Int.add_comm]
  · intro a h1 h2
    unfold Add
    rw [Int.add_zero]
    exact wrap64_eq_self h1 h2

/-- Witness for C10 at a concrete in-range input. -/
theorem c10_add_comm_and_zero_identity_witness : Add 5 0 = 5 :=
  c10_add_comm_and_zero_identity.2 5 (by decide) (by decide)

end LearnGo
